import Mathlib

/-!
# Verification of deskflow's secure listen socket and network monitor

Shallow embedding of `src/lib/net/SecureListenSocket.cpp` and
`src/lib/gui/core/network/NetworkMonitor.cpp`.

The `accept()` member of `SecureListenSocket` is embedded as a pure
function of an environment describing the outcome of each collaborator
call (raw accept, SSL initialisation, certificate load, handshake
start).  The function returns both the value `accept()` would produce
(a connection, the NULL sentinel, or a propagated exception) and the
trace of observable actions it performed, in order.  Claims about
re-arming discipline and event ordering are stated over that trace.

The `NetworkMonitor` members are embedded as pure functions of the
interface list that `QNetworkInterface::allInterfaces()` would report,
plus the monitor's stored state.
-/

/-- Exception kinds that can cross a call in `accept()`: `XArchNetwork`
(the anticipated network-layer class) or any other `std::exception`. -/
inductive Exc where
  | archNetwork
  | stdExc
deriving DecidableEq, Repr

/-- Observable actions performed by `SecureListenSocket::accept()`, in
program order.  `rearm` is a call to `setListeningJob()`;
`certResolved` records the certificate path the function settled on;
`certLoadAttempt` records a call to `loadCertificates` with its path
argument; `handshakeStarted` is the `secureAccept()` call;
`socketDeleted` is `delete socket`. -/
inductive Event where
  | socketCreated
  | rearm
  | certResolved (path : String)
  | certLoadAttempt (path : String)
  | handshakeStarted
  | socketDeleted
deriving DecidableEq, Repr

/-- The value `accept()` hands back to its caller: a connection
(carrying the certificate path it was loaded from), the NULL sentinel,
or an exception propagated out of the function. -/
inductive AcceptResult where
  | connection (certPath : String)
  | nullResult
  | raised (e : Exc)
deriving DecidableEq, Repr

/-- Environment of one `accept()` call: outcome of every collaborator
call the body makes, plus the configuration it reads.
`rawAccept` covers `ARCH->acceptSocket` together with the
`SecureSocket` constructor (if either throws, the local `socket`
pointer is still NULL).  `loadCert` is `socket->loadCertificates`,
which returns a `bool` and, being a C++ call, may also throw.
`profileDir` is `ARCH->getProfileDirectory()`, `appId` is `kAppId`,
and `tlsCertFile` is `ArgParser::argsBase().m_tlsCertFile`. -/
structure AcceptEnv where
  rawAccept : Except Exc Unit
  initSsl : Except Exc Unit
  loadCert : String → Except Exc Bool
  secureAccept : Except Exc Unit
  profileDir : String
  appId : String
  tlsCertFile : String

/-- `static const char s_certificateDir[] = {"tls"};` -/
def s_certificateDir : String := "tls"

/-- `static const char s_certificateFileExt[] = {"pem"};` -/
def s_certificateFileExt : String := "pem"

/-- The certificate path `accept()` settles on (lines 60-68): the
sprintf-composed default `<profileDir>/tls/<appId>.pem`, overridden
verbatim by `m_tlsCertFile` when that option is non-empty.  A pure
function of the profile directory, `kAppId` and the override option. -/
def certificateFilename (profileDir appId tlsCertFile : String) : String :=
  let defaultName :=
    profileDir ++ "/" ++ s_certificateDir ++ "/" ++ appId ++ "." ++ s_certificateFileExt
  if tlsCertFile = "" then defaultName else tlsCertFile

/-- The two catch clauses of `accept()`.  `catch (XArchNetwork &)`
absorbs the exception and returns NULL; `catch (std::exception &ex)`
rethrows.  Both delete the socket and call `setListeningJob()` only
when the local `socket` pointer is non-NULL. -/
def catchHandler (e : Exc) (socketNonNull : Bool) (tr : List Event) :
    AcceptResult × List Event :=
  match e with
  | .archNetwork =>
      if socketNonNull then (.nullResult, tr ++ [.socketDeleted, .rearm])
      else (.nullResult, tr)
  | .stdExc =>
      if socketNonNull then (.raised .stdExc, tr ++ [.socketDeleted, .rearm])
      else (.raised .stdExc, tr)

/-- Embedding of `SecureListenSocket::accept()` (SecureListenSocket.cpp,
lines 49-92): raw accept + construction, `initSsl(true)`,
`setListeningJob()`, certificate-path resolution, `loadCertificates`,
`secureAccept()`, with the two catch clauses of `catchHandler`. -/
def accept (env : AcceptEnv) : AcceptResult × List Event :=
  match env.rawAccept with
  | .error e => catchHandler e false []
  | .ok _ =>
    match env.initSsl with
    | .error e => catchHandler e true [.socketCreated]
    | .ok _ =>
      let path := certificateFilename env.profileDir env.appId env.tlsCertFile
      let tr := [Event.socketCreated, Event.rearm,
                 Event.certResolved path, Event.certLoadAttempt path]
      match env.loadCert path with
      | .error e => catchHandler e true tr
      | .ok false => (.nullResult, tr ++ [.socketDeleted])
      | .ok true =>
        match env.secureAccept with
        | .error e => catchHandler e true (tr ++ [.handshakeStarted])
        | .ok _ => (.connection path, tr ++ [.handshakeStarted])

/-- Modelled from the spec: `setListeningJob()` lives in
`TCPListenSocket` (outside the sources at hand).  Per the spec, the
readiness dispatch that led to `accept()` consumed the listener's
single multiplexer registration, and `setListeningJob()` restores it;
so the registration is present after `accept()` returns iff at least
one re-arm occurred during the call. -/
def registrationPresentAfter (tr : List Event) : Bool :=
  tr.any (fun e => e == Event.rearm)

/-- No certificate-resolution, certificate-load or handshake event
occurs before the first re-arm in the trace. -/
def rearmBeforeCertWork : List Event → Bool
  | [] => true
  | .rearm :: _ => true
  | .certResolved _ :: _ => false
  | .certLoadAttempt _ :: _ => false
  | .handshakeStarted :: _ => false
  | .socketCreated :: rest => rearmBeforeCertWork rest
  | .socketDeleted :: rest => rearmBeforeCertWork rest

/-- Is this event a certificate-load attempt? -/
def isCertLoadAttempt : Event → Bool
  | .certLoadAttempt _ => true
  | _ => false

/-!
## NetworkMonitor (src/lib/gui/core/network/NetworkMonitor.cpp)

`QHostAddress` is embedded as an inductive: the null (default) address,
an IPv4 address given by its 32-bit value, or an IPv6 address.
`QNetworkInterface` is embedded as a record of the flag bits and
address list the code reads.  `QNetworkInterface::allInterfaces()` is
the environment: a list of such records.
-/

/-- Embedding of `QHostAddress`: null (the default-constructed
address), or an address of one protocol with its numeric value. -/
inductive HostAddress where
  | null
  | ipv4 (v : Nat)
  | ipv6 (v : Nat)
deriving DecidableEq, Repr

/-- `QHostAddress::isNull()`. -/
def HostAddress.isNull : HostAddress → Bool
  | .null => true
  | _ => false

/-- Does the address use `QAbstractSocket::IPv4Protocol`? -/
def HostAddress.isIPv4 : HostAddress → Bool
  | .ipv4 _ => true
  | _ => false

/-- `QHostAddress(QHostAddress::LocalHost)`, i.e. 127.0.0.1. -/
def localHost : HostAddress := .ipv4 (127 * 2 ^ 24 + 1)

/-- `isInSubnet(parseSubnet("<hi>.<lo>.0.0/16"))` where `netHigh` is the
upper 16 bits of the subnet: true iff the address is IPv4 and its upper
16 bits equal `netHigh`. -/
def inSubnet16 (netHigh : Nat) : HostAddress → Bool
  | .ipv4 v => v / 65536 == netHigh
  | _ => false

/-- Upper 16 bits of the link-local subnet 169.254.0.0/16. -/
def linkLocalNet : Nat := 169 * 256 + 254

/-- Upper 16 bits of the subnet parsed from "192.168/16". -/
def homeNet : Nat := 192 * 256 + 168

/-- Embedding of `QNetworkInterface`: the flag bits the monitor reads,
its names, and `allAddresses()`. -/
structure NetIface where
  name : String
  humanReadableName : String
  isUp : Bool
  isRunning : Bool
  isLoopBack : Bool
  addresses : List HostAddress
deriving DecidableEq, Repr

/-- The interface-flag test shared by `getAvailableIPv4Addresses` and
`getActiveNetworkInterfaces`: `IsUp && IsRunning && !IsLoopBack`. -/
def ifaceActive (i : NetIface) : Bool :=
  i.isUp && i.isRunning && !i.isLoopBack

/-- The per-address test of `getAvailableIPv4Addresses`: IPv4 protocol,
not localhost, not in 169.254.0.0/16. -/
def addressEligible (a : HostAddress) : Bool :=
  a.isIPv4 && a != localHost && !inSubnet16 linkLocalNet a

/-- `QNetworkInterface::allAddresses()` is a static member: it returns
the host-wide list of every address of every interface, regardless of
which instance it is syntactically called on. -/
def allAddresses (ifaces : List NetIface) : List HostAddress :=
  ifaces.flatMap (fun i => i.addresses)

/-- Embedding of `NetworkMonitor::getAvailableIPv4Addresses` (lines
56-76): for every interface passing the flag test, iterate the
host-wide `allAddresses()` list — `interface.allAddresses()` at line 65
invokes the static member, not a per-interface accessor — and append
every address passing the protocol/localhost/link-local test. -/
def getAvailableIPv4Addresses (ifaces : List NetIface) : List HostAddress :=
  (ifaces.filter ifaceActive).flatMap
    (fun _ => (allAddresses ifaces).filter addressEligible)

/-- Embedding of `NetworkMonitor::getActiveNetworkInterfaces` (lines
227-240). -/
def getActiveNetworkInterfaces (ifaces : List NetIface) : List NetIface :=
  ifaces.filter ifaceActive

/-- The default-preference tail of `getSuggestedIPv4Address` (lines
91-117): first address in 192.168.0.0/16, else the first address; the
source then repeats the same two blocks verbatim (dead when the list is
non-empty) before returning the null address. -/
def suggestFromDefault (addresses : List HostAddress) : HostAddress :=
  match addresses.find? (inSubnet16 homeNet) with
  | some a => a
  | none =>
    match addresses with
    | a :: _ => a
    | [] =>
      match addresses.find? (inSubnet16 homeNet) with
      | some a => a
      | none =>
        match addresses with
        | a :: _ => a
        | [] => HostAddress.null

/-- Embedding of `NetworkMonitor::getSuggestedIPv4Address` (lines
78-118): if the selected address is non-null and among the available
addresses, return it; otherwise fall through to the default
preference logic. -/
def getSuggestedIPv4Address (ifaces : List NetIface) (selected : HostAddress) :
    HostAddress :=
  if !selected.isNull then
    match (getAvailableIPv4Addresses ifaces).find? (fun a => a == selected) with
    | some a => a
    | none => suggestFromDefault (getAvailableIPv4Addresses ifaces)
  else
    suggestFromDefault (getAvailableIPv4Addresses ifaces)

/-- The monitor's stored state: the fields `updateNetworkState` reads
and writes. -/
structure MonitorState where
  lastAddresses : List HostAddress
  lastActiveInterfaces : List String
  lastNetworkInterfaces : List NetIface
  selectedIPAddress : HostAddress
deriving DecidableEq, Repr

/-- The `addressesChanged` computation of `updateNetworkState` (lines
174-182): sizes differ, or some current address is not contained in the
stored list. -/
def addressesChangedB (current last : List HostAddress) : Bool :=
  current.length != last.length || current.any (fun a => !last.contains a)

/-- The `interfacesChanged` computation (lines 184-199): sizes differ,
or some current interface's name matches no stored interface's name. -/
def interfacesChangedB (current last : List NetIface) : Bool :=
  current.length != last.length
    || current.any (fun i => !last.any (fun j => j.name == i.name))

/-- The `selectedIPChanged` computation (lines 202-212): the selected
address is non-null and not among the current addresses. -/
def selectedChangedB (selected : HostAddress) (current : List HostAddress) : Bool :=
  !selected.isNull && !current.contains selected

/-- Embedding of `NetworkMonitor::updateNetworkState` (lines 169-225):
recompute the three change flags; if any is set, store the current
snapshot and return true, else return false leaving the state as is. -/
def updateNetworkState (ifaces : List NetIface) (s : MonitorState) :
    Bool × MonitorState :=
  let currentAddresses := getAvailableIPv4Addresses ifaces
  let currentInterfaces := getActiveNetworkInterfaces ifaces
  if addressesChangedB currentAddresses s.lastAddresses
      || interfacesChangedB currentInterfaces s.lastNetworkInterfaces
      || selectedChangedB s.selectedIPAddress currentAddresses then
    (true,
      { s with
        lastAddresses := currentAddresses
        lastActiveInterfaces := currentInterfaces.map (fun i => i.humanReadableName)
        lastNetworkInterfaces := currentInterfaces })
  else
    (false, s)

/-!
## Specification-level change predicates and concrete inputs
-/

/-- The current address list differs from the stored one: different
size, or some current address absent from the stored list. -/
def AddressesDiffer (ifaces : List NetIface) (s : MonitorState) : Prop :=
  (getAvailableIPv4Addresses ifaces).length ≠ s.lastAddresses.length
    ∨ ∃ a ∈ getAvailableIPv4Addresses ifaces, a ∉ s.lastAddresses

/-- The current active-interface list differs from the stored one:
different size, or some current interface whose name matches no stored
interface's name. -/
def InterfacesDiffer (ifaces : List NetIface) (s : MonitorState) : Prop :=
  (getActiveNetworkInterfaces ifaces).length ≠ s.lastNetworkInterfaces.length
    ∨ ∃ i ∈ getActiveNetworkInterfaces ifaces,
        ∀ j ∈ s.lastNetworkInterfaces, j.name ≠ i.name

/-- The selected address is set but not currently available. -/
def SelectedUnavailable (ifaces : List NetIface) (s : MonitorState) : Prop :=
  s.selectedIPAddress ≠ HostAddress.null
    ∧ s.selectedIPAddress ∉ getAvailableIPv4Addresses ifaces

/-- An `accept()` environment in which `ARCH->acceptSocket` raises
`XArchNetwork` (transport failure, or readiness race with no pending
connection). -/
def envNetFail : AcceptEnv :=
  { rawAccept := .error .archNetwork
    initSsl := .ok ()
    loadCert := fun _ => .ok true
    secureAccept := .ok ()
    profileDir := "/home/u/.config/app"
    appId := "deskflow"
    tlsCertFile := "" }

/-- An `accept()` environment in which the raw accept / connection
construction raises a non-`XArchNetwork` `std::exception` (e.g. an
allocation failure). -/
def envUnexpectedFail : AcceptEnv :=
  { envNetFail with rawAccept := .error .stdExc }

/-- An `accept()` environment with a non-empty certificate-path
override whose certificate load fails. -/
def envOverride : AcceptEnv :=
  { rawAccept := .ok ()
    initSsl := .ok ()
    loadCert := fun _ => .ok false
    secureAccept := .ok ()
    profileDir := "/p"
    appId := "app"
    tlsCertFile := "/etc/override.pem" }

/-- An `accept()` environment with no override in which the
certificate load fails. -/
def envCertFail : AcceptEnv :=
  { rawAccept := .ok ()
    initSsl := .ok ()
    loadCert := fun _ => .ok false
    secureAccept := .ok ()
    profileDir := "/home/u/.config/app"
    appId := "deskflow"
    tlsCertFile := "" }

/-- A concrete up-and-running non-loopback interface carrying one
10.0.0.5 and one 192.168.1.7 address. -/
def ifaceEth : NetIface :=
  { name := "eth0"
    humanReadableName := "Ethernet"
    isUp := true
    isRunning := true
    isLoopBack := false
    addresses := [HostAddress.ipv4 (10 * 2 ^ 24 + 5),
                  HostAddress.ipv4 (192 * 2 ^ 24 + 168 * 2 ^ 16 + 256 + 7)] }

/-- An up-and-running non-loopback interface carrying no addresses of
its own. -/
def ifaceEthBare : NetIface :=
  { name := "eth1"
    humanReadableName := "Ethernet 2"
    isUp := true
    isRunning := true
    isLoopBack := false
    addresses := [] }

/-- A loopback interface carrying the non-127 address 10.1.1.1. -/
def ifaceLo : NetIface :=
  { name := "lo"
    humanReadableName := "Loopback"
    isUp := true
    isRunning := true
    isLoopBack := true
    addresses := [HostAddress.ipv4 (10 * 2 ^ 24 + 2 ^ 16 + 257)] }

/-- A monitor state with empty stored snapshots and a selected address
10.0.0.9 that no interface carries. -/
def cexState : MonitorState :=
  { lastAddresses := []
    lastActiveInterfaces := []
    lastNetworkInterfaces := []
    selectedIPAddress := HostAddress.ipv4 (10 * 2 ^ 24 + 9) }

/-- A monitor state with a stale stored address list and no selected
address. -/
def staleState : MonitorState :=
  { lastAddresses := [HostAddress.ipv4 7]
    lastActiveInterfaces := []
    lastNetworkInterfaces := []
    selectedIPAddress := HostAddress.null }

/-!
## Theorems: SecureListenSocket::accept
-/

/-- Claim C1 (code bug): after an `accept()` call in which the raw
accept raises `XArchNetwork`, the local socket pointer is still NULL,
so the catch clause performs no re-arm at all: the call returns NULL
with zero re-arms and the multiplexer registration is absent, contrary
to the claimed invariant that the registration is present (re-armed
exactly once) after every call. -/
theorem accept_netFail_registration_absent :
    registrationPresentAfter (accept envNetFail).2 = false ∧
      (accept envNetFail).2.count Event.rearm = 0 := ⟨rfl, rfl⟩

/-- Claim C2 (code bug): a network-layer error during the raw accept
does yield the empty sentinel with no exception crossing the boundary,
but zero re-arms occur during the call, not exactly one. -/
theorem accept_netFail_null_no_exception_zero_rearms :
    (accept envNetFail).1 = AcceptResult.nullResult ∧
      (accept envNetFail).2.count Event.rearm = 0 := ⟨rfl, rfl⟩

/-- Claim C3: on every path of `accept()`, no certificate-resolution,
certificate-load or handshake event precedes the first re-arm; and on
a successful raw accept and SSL initialisation, a re-arm and the
certificate resolution both occur, in that order. -/
theorem accept_rearm_precedes_cert_work (env : AcceptEnv) :
    rearmBeforeCertWork (accept env).2 = true ∧
      (env.rawAccept = .ok () → env.initSsl = .ok () →
        Event.rearm ∈ (accept env).2 ∧
          Event.certResolved (certificateFilename env.profileDir env.appId env.tlsCertFile)
            ∈ (accept env).2) := by
  rcases env with ⟨ra, isl, lc, sa, pd, ai, tls⟩
  cases ra with
  | error e =>
      cases e <;> exact ⟨rfl, fun h => by cases h⟩
  | ok u =>
      cases u
      cases isl with
      | error e =>
          cases e <;> exact ⟨rfl, fun _ h => by cases h⟩
      | ok u =>
          cases u
          cases hlc : lc (certificateFilename pd ai tls) with
          | error e =>
              cases e <;>
                exact ⟨by simp [accept, hlc, catchHandler, rearmBeforeCertWork],
                       fun _ _ => by simp [accept, hlc, catchHandler]⟩
          | ok b =>
              cases b
              · exact ⟨by simp [accept, hlc, rearmBeforeCertWork],
                       fun _ _ => by simp [accept, hlc]⟩
              · cases hsa : sa with
                | error e =>
                    cases e <;>
                      exact ⟨by simp [accept, hlc, catchHandler, rearmBeforeCertWork],
                             fun _ _ => by simp [accept, hlc, catchHandler]⟩
                | ok u =>
                    cases u
                    exact ⟨by simp [accept, hlc, rearmBeforeCertWork],
                           fun _ _ => by simp [accept, hlc]⟩

/-- Witness for C3 at a concrete environment. -/
theorem accept_rearm_precedes_cert_work_witness :
    Event.rearm ∈ (accept envCertFail).2 ∧
      Event.certResolved
          (certificateFilename envCertFail.profileDir envCertFail.appId envCertFail.tlsCertFile)
        ∈ (accept envCertFail).2 :=
  (accept_rearm_precedes_cert_work envCertFail).2 rfl rfl

/-- Claim C4: with no override set, certificate-path resolution
composes exactly profile-directory/tls/app-id.pem. -/
theorem certificateFilename_default (profileDir appId tlsCertFile : String)
    (h : tlsCertFile = "") :
    certificateFilename profileDir appId tlsCertFile =
      profileDir ++ "/tls/" ++ appId ++ ".pem" := by
  unfold certificateFilename
  rw [if_pos h]
  simp [s_certificateDir, s_certificateFileExt, String.append_assoc]

/-- Witness for C4: profile directory /home/u/.config/app and
application id deskflow yield /home/u/.config/app/tls/deskflow.pem
exactly. -/
theorem certificateFilename_default_witness :
    certificateFilename "/home/u/.config/app" "deskflow" "" =
      "/home/u/.config/app/tls/deskflow.pem" := by
  rw [certificateFilename_default "/home/u/.config/app" "deskflow" "" rfl]
  rfl

/-- Claim C5: a non-empty override is used verbatim; when its
certificate load fails, `accept()` returns NULL and the only
certificate-load attempt in the call used the override path, so the
default path is never retried. -/
theorem accept_override_verbatim_no_fallback (env : AcceptEnv)
    (hov : env.tlsCertFile ≠ "")
    (hra : env.rawAccept = .ok ())
    (hssl : env.initSsl = .ok ())
    (hload : env.loadCert env.tlsCertFile = .ok false) :
    certificateFilename env.profileDir env.appId env.tlsCertFile = env.tlsCertFile ∧
      (accept env).1 = AcceptResult.nullResult ∧
      (accept env).2.filter isCertLoadAttempt =
        [Event.certLoadAttempt env.tlsCertFile] := by
  rcases env with ⟨ra, isl, lc, sa, pd, ai, tls⟩
  simp only at hov hra hssl hload
  subst hra hssl
  have hcf : certificateFilename pd ai tls = tls := by
    unfold certificateFilename
    rw [if_neg hov]
  refine ⟨hcf, ?_, ?_⟩
  · simp [accept, hcf, hload]
  · simp [accept, hcf, hload, isCertLoadAttempt]

/-- Witness for C5 at a concrete environment with override
/etc/override.pem. -/
theorem accept_override_witness :
    certificateFilename envOverride.profileDir envOverride.appId envOverride.tlsCertFile =
        envOverride.tlsCertFile ∧
      (accept envOverride).1 = AcceptResult.nullResult ∧
      (accept envOverride).2.filter isCertLoadAttempt =
        [Event.certLoadAttempt envOverride.tlsCertFile] :=
  accept_override_verbatim_no_fallback envOverride (by decide) rfl rfl rfl

/-- Claim C6: when the certificate load fails, `accept()` deletes the
connection, returns NULL without raising, and the listener was
re-armed exactly once during the call, so the registration is
present. -/
theorem accept_certLoadFail_nonfatal (env : AcceptEnv)
    (hra : env.rawAccept = .ok ())
    (hssl : env.initSsl = .ok ())
    (hload : env.loadCert (certificateFilename env.profileDir env.appId env.tlsCertFile) =
      .ok false) :
    (accept env).1 = AcceptResult.nullResult ∧
      Event.socketDeleted ∈ (accept env).2 ∧
      (accept env).2.count Event.rearm = 1 ∧
      registrationPresentAfter (accept env).2 = true := by
  rcases env with ⟨ra, isl, lc, sa, pd, ai, tls⟩
  simp only at hra hssl hload
  subst hra hssl
  refine ⟨?_, ?_, ?_, ?_⟩ <;>
    simp [accept, hload, registrationPresentAfter, List.count_cons]

/-- Witness for C6 at a concrete environment. -/
theorem accept_certLoadFail_witness :
    (accept envCertFail).1 = AcceptResult.nullResult ∧
      Event.socketDeleted ∈ (accept envCertFail).2 ∧
      (accept envCertFail).2.count Event.rearm = 1 ∧
      registrationPresentAfter (accept envCertFail).2 = true :=
  accept_certLoadFail_nonfatal envCertFail rfl rfl rfl

/-- Claim C7 (code bug): when a non-`XArchNetwork` `std::exception` is
raised during the raw accept, the exception does propagate out of
`accept()`, but with the socket pointer still NULL the catch clause
attempts no re-arm before propagation. -/
theorem accept_unexpected_propagates_without_rearm :
    (accept envUnexpectedFail).1 = AcceptResult.raised Exc.stdExc ∧
      (accept envUnexpectedFail).2.count Event.rearm = 0 := ⟨rfl, rfl⟩

/-!
## Theorems: NetworkMonitor
-/

/-- Counterexample to claim C9 as stated: with an addressless active
interface eth1 and a loopback interface lo carrying 10.1.1.1, the
static `allAddresses()` makes the eth1 iteration pick up lo's address,
so 10.1.1.1 is returned although no up, running, non-loopback
interface carries it. -/
theorem available_addresses_loopback_leak :
    HostAddress.ipv4 (10 * 2 ^ 24 + 2 ^ 16 + 257)
        ∈ getAvailableIPv4Addresses [ifaceEthBare, ifaceLo] ∧
      ¬∃ i ∈ [ifaceEthBare, ifaceLo],
          i.isUp = true ∧ i.isRunning = true ∧ i.isLoopBack = false ∧
            HostAddress.ipv4 (10 * 2 ^ 24 + 2 ^ 16 + 257) ∈ i.addresses := by
  decide

/-- Claim C9 as amended: every address returned by
`getAvailableIPv4Addresses` is an IPv4 address that is neither
localhost nor link-local (169.254.0.0/16) and appears on some
interface of the host; and the list is non-empty only when some
interface is up, running and not loopback.  (The per-interface
provenance of the original claim fails: `allAddresses()` is host-wide,
so an active interface's iteration returns other interfaces'
addresses too.) -/
theorem available_addresses_sound (ifaces : List NetIface) (a : HostAddress)
    (h : a ∈ getAvailableIPv4Addresses ifaces) :
    a.isIPv4 = true ∧ a ≠ localHost ∧ inSubnet16 linkLocalNet a = false ∧
      (∃ i ∈ ifaces, a ∈ i.addresses) ∧
      ∃ i ∈ ifaces, i.isUp = true ∧ i.isRunning = true ∧ i.isLoopBack = false := by
  unfold getAvailableIPv4Addresses at h
  rw [List.mem_flatMap] at h
  obtain ⟨i, hi, ha⟩ := h
  rw [List.mem_filter] at hi ha
  obtain ⟨hi_mem, hi_act⟩ := hi
  obtain ⟨ha_mem, ha_el⟩ := ha
  unfold allAddresses at ha_mem
  rw [List.mem_flatMap] at ha_mem
  obtain ⟨j, hj_mem, hj_addr⟩ := ha_mem
  unfold ifaceActive at hi_act
  unfold addressEligible at ha_el
  simp only [Bool.and_eq_true, Bool.not_eq_true', bne_iff_ne, ne_eq] at hi_act ha_el
  exact ⟨ha_el.1.1, ha_el.1.2, ha_el.2, ⟨j, hj_mem, hj_addr⟩,
         i, hi_mem, hi_act.1.1, hi_act.1.2, hi_act.2⟩

/-- Witness for the amended claim C9: 10.0.0.5 on a concrete active
interface. -/
theorem available_addresses_sound_witness :
    (HostAddress.ipv4 (10 * 2 ^ 24 + 5)).isIPv4 = true ∧
      HostAddress.ipv4 (10 * 2 ^ 24 + 5) ≠ localHost ∧
      inSubnet16 linkLocalNet (HostAddress.ipv4 (10 * 2 ^ 24 + 5)) = false ∧
      (∃ i ∈ [ifaceEth], HostAddress.ipv4 (10 * 2 ^ 24 + 5) ∈ i.addresses) ∧
      ∃ i ∈ [ifaceEth], i.isUp = true ∧ i.isRunning = true ∧ i.isLoopBack = false :=
  available_addresses_sound [ifaceEth] (HostAddress.ipv4 (10 * 2 ^ 24 + 5)) (by decide)

/-- Case analysis of the default-preference tail of
`getSuggestedIPv4Address`: it returns the first 192.168.0.0/16 address
if any, else the first address, else null; on a non-empty list the
result is an element of the list. -/
theorem suggestFromDefault_cases (l : List HostAddress) :
    (∀ a, l.find? (inSubnet16 homeNet) = some a → suggestFromDefault l = a)
  ∧ (l.find? (inSubnet16 homeNet) = none →
      suggestFromDefault l = l.headD HostAddress.null)
  ∧ (l ≠ [] → suggestFromDefault l ∈ l) := by
  refine ⟨?_, ?_, ?_⟩
  · intro a hf
    unfold suggestFromDefault
    rw [hf]
  · intro hf
    unfold suggestFromDefault
    rw [hf]
    cases l with
    | nil => rfl
    | cons x xs => rfl
  · intro hne
    unfold suggestFromDefault
    cases hf : l.find? (inSubnet16 homeNet) with
    | some a => exact List.mem_of_find?_eq_some hf
    | none =>
        cases l with
        | nil => exact absurd rfl hne
        | cons x xs => exact List.mem_cons_self x xs

/-- Claim C8: `getSuggestedIPv4Address` returns the selected address
whenever it is set and available; otherwise, on a non-empty available
list it returns an element of that list — the first one in
192.168.0.0/16 if any, else the first available — and on an empty
list it returns the null address. -/
theorem suggested_address_spec (ifaces : List NetIface) (selected : HostAddress) :
    (getAvailableIPv4Addresses ifaces ≠ [] →
      getSuggestedIPv4Address ifaces selected ∈ getAvailableIPv4Addresses ifaces)
  ∧ (selected ≠ HostAddress.null → selected ∈ getAvailableIPv4Addresses ifaces →
      getSuggestedIPv4Address ifaces selected = selected)
  ∧ ((selected = HostAddress.null ∨ selected ∉ getAvailableIPv4Addresses ifaces) →
      (∀ a, (getAvailableIPv4Addresses ifaces).find? (inSubnet16 homeNet) = some a →
        getSuggestedIPv4Address ifaces selected = a)
      ∧ ((getAvailableIPv4Addresses ifaces).find? (inSubnet16 homeNet) = none →
          getSuggestedIPv4Address ifaces selected =
            (getAvailableIPv4Addresses ifaces).headD HostAddress.null))
  ∧ (getAvailableIPv4Addresses ifaces = [] →
      getSuggestedIPv4Address ifaces selected = HostAddress.null) := by
  have hdef := suggestFromDefault_cases (getAvailableIPv4Addresses ifaces)
  have hnotnull : ∀ s : HostAddress, s ≠ HostAddress.null → (!s.isNull) = true := by
    intro s hs
    cases s with
    | null => exact absurd rfl hs
    | ipv4 v => rfl
    | ipv6 v => rfl
  have hfind_mem : selected ∈ getAvailableIPv4Addresses ifaces →
      (getAvailableIPv4Addresses ifaces).find? (fun a => a == selected) = some selected := by
    intro hmem
    have hsome : ((getAvailableIPv4Addresses ifaces).find? (fun a => a == selected)).isSome := by
      rw [List.find?_isSome]
      exact ⟨selected, hmem, by simp⟩
    obtain ⟨x, hx⟩ := Option.isSome_iff_exists.mp hsome
    have := List.find?_some hx
    simp only [beq_iff_eq] at this
    rw [this] at hx
    exact hx
  have hfind_none : selected ∉ getAvailableIPv4Addresses ifaces →
      (getAvailableIPv4Addresses ifaces).find? (fun a => a == selected) = none := by
    intro hnmem
    rw [List.find?_eq_none]
    intro x hx
    simp only [beq_iff_eq]
    intro heq
    exact hnmem (heq ▸ hx)
  refine ⟨?_, ?_, ?_, ?_⟩
  · intro hne
    unfold getSuggestedIPv4Address
    by_cases hsel : selected = HostAddress.null
    · subst hsel
      simp only [HostAddress.isNull, Bool.not_true, if_neg]
      exact hdef.2.2 hne
    · rw [if_pos (hnotnull selected hsel)]
      by_cases hmem : selected ∈ getAvailableIPv4Addresses ifaces
      · rw [hfind_mem hmem]
        exact hmem
      · rw [hfind_none hmem]
        exact hdef.2.2 hne
  · intro hsel hmem
    unfold getSuggestedIPv4Address
    rw [if_pos (hnotnull selected hsel), hfind_mem hmem]
  · intro hcase
    constructor
    · intro a hf
      unfold getSuggestedIPv4Address
      rcases hcase with hsel | hmem
      · subst hsel
        simp only [HostAddress.isNull, Bool.not_true, if_neg]
        exact hdef.1 a hf
      · by_cases hsel : selected = HostAddress.null
        · subst hsel
          simp only [HostAddress.isNull, Bool.not_true, if_neg]
          exact hdef.1 a hf
        · rw [if_pos (hnotnull selected hsel), hfind_none hmem]
          exact hdef.1 a hf
    · intro hf
      unfold getSuggestedIPv4Address
      rcases hcase with hsel | hmem
      · subst hsel
        simp only [HostAddress.isNull, Bool.not_true, if_neg]
        exact hdef.2.1 hf
      · by_cases hsel : selected = HostAddress.null
        · subst hsel
          simp only [HostAddress.isNull, Bool.not_true, if_neg]
          exact hdef.2.1 hf
        · rw [if_pos (hnotnull selected hsel), hfind_none hmem]
          exact hdef.2.1 hf
  · intro hempty
    unfold getSuggestedIPv4Address
    by_cases hsel : selected = HostAddress.null
    · subst hsel
      simp only [HostAddress.isNull, Bool.not_true, if_neg]
      rw [hdef.2.1 (by rw [hempty]; rfl), hempty]
      rfl
    · rw [if_pos (hnotnull selected hsel),
          hfind_none (by rw [hempty]; exact List.not_mem_nil selected)]
      rw [hdef.2.1 (by rw [hempty]; rfl), hempty]
      rfl

/-- Witness for C8: a set-and-available selected address 10.0.0.5 is
returned as is. -/
theorem suggested_address_witness :
    getSuggestedIPv4Address [ifaceEth] (HostAddress.ipv4 (10 * 2 ^ 24 + 5)) =
      HostAddress.ipv4 (10 * 2 ^ 24 + 5) :=
  (suggested_address_spec [ifaceEth] (HostAddress.ipv4 (10 * 2 ^ 24 + 5))).2.1
    (by decide) (by decide)

/-- An address is null exactly when it is the null constructor. -/
theorem isNull_iff (a : HostAddress) : a.isNull = true ↔ a = HostAddress.null := by
  cases a <;> simp [HostAddress.isNull]

/-- The code's `addressesChanged` flag holds exactly when the lists
differ in size or some current address is missing from the stored
list. -/
theorem addressesChangedB_iff (current last : List HostAddress) :
    addressesChangedB current last = true ↔
      (current.length ≠ last.length ∨ ∃ a ∈ current, a ∉ last) := by
  simp [addressesChangedB, List.any_eq_true]

/-- The code's `interfacesChanged` flag holds exactly when the lists
differ in size or some current interface's name matches no stored
name. -/
theorem interfacesChangedB_iff (current last : List NetIface) :
    interfacesChangedB current last = true ↔
      (current.length ≠ last.length ∨
        ∃ i ∈ current, ∀ j ∈ last, j.name ≠ i.name) := by
  simp [interfacesChangedB, List.any_eq_true, List.any_eq_false]

/-- The code's `selectedIPChanged` flag holds exactly when the selected
address is set and not currently available. -/
theorem selectedChangedB_iff (selected : HostAddress) (current : List HostAddress) :
    selectedChangedB selected current = true ↔
      (selected ≠ HostAddress.null ∧ selected ∉ current) := by
  simp [selectedChangedB, ← isNull_iff]

/-- Comparing an address list with itself reports no change. -/
theorem addressesChangedB_self (l : List HostAddress) :
    addressesChangedB l l = false := by
  simp [addressesChangedB, List.any_eq_false]

/-- Comparing an interface list with itself reports no change. -/
theorem interfacesChangedB_self (l : List NetIface) :
    interfacesChangedB l l = false := by
  simp only [interfacesChangedB, bne_self_eq_false, Bool.false_or, List.any_eq_false]
  intro i hi
  have hw : l.any (fun j => j.name == i.name) = true := List.any_eq_true.mpr ⟨i, hi, by simp⟩
  simp [hw]

/-- The Boolean `updateNetworkState` returns is the disjunction of the
three change flags. -/
theorem updateNetworkState_fst (ifaces : List NetIface) (s : MonitorState) :
    (updateNetworkState ifaces s).1 =
      (addressesChangedB (getAvailableIPv4Addresses ifaces) s.lastAddresses
        || interfacesChangedB (getActiveNetworkInterfaces ifaces) s.lastNetworkInterfaces
        || selectedChangedB s.selectedIPAddress (getAvailableIPv4Addresses ifaces)) := by
  unfold updateNetworkState
  cases hb : (addressesChangedB (getAvailableIPv4Addresses ifaces) s.lastAddresses
      || interfacesChangedB (getActiveNetworkInterfaces ifaces) s.lastNetworkInterfaces
      || selectedChangedB s.selectedIPAddress (getAvailableIPv4Addresses ifaces)) <;>
    simp [hb]

/-- When `updateNetworkState` returns true it stores the current
snapshot, leaving the selected address untouched. -/
theorem updateNetworkState_snd_of_true (ifaces : List NetIface) (s : MonitorState)
    (h : (updateNetworkState ifaces s).1 = true) :
    (updateNetworkState ifaces s).2 =
      { s with
        lastAddresses := getAvailableIPv4Addresses ifaces
        lastActiveInterfaces :=
          (getActiveNetworkInterfaces ifaces).map (fun i => i.humanReadableName)
        lastNetworkInterfaces := getActiveNetworkInterfaces ifaces } := by
  rw [updateNetworkState_fst] at h
  unfold updateNetworkState
  simp [h]

/-- When `updateNetworkState` returns false it leaves the state as
is. -/
theorem updateNetworkState_snd_of_false (ifaces : List NetIface) (s : MonitorState)
    (h : (updateNetworkState ifaces s).1 = false) :
    (updateNetworkState ifaces s).2 = s := by
  rw [updateNetworkState_fst] at h
  unfold updateNetworkState
  simp [h]

/-- Claim C10 as amended: `updateNetworkState` returns true iff the
address list differs from the stored one, the active-interface list
differs from the stored one, or the selected address is set and
currently unavailable; on returning true it stores the current
snapshot; and an immediately repeated call under an unchanged
environment returns false provided the selected address is null or
currently available. -/
theorem updateNetworkState_spec (ifaces : List NetIface) (s : MonitorState) :
    ((updateNetworkState ifaces s).1 = true ↔
      (AddressesDiffer ifaces s ∨ InterfacesDiffer ifaces s ∨ SelectedUnavailable ifaces s))
  ∧ ((updateNetworkState ifaces s).1 = true →
      (updateNetworkState ifaces s).2.lastAddresses = getAvailableIPv4Addresses ifaces
      ∧ (updateNetworkState ifaces s).2.lastNetworkInterfaces =
          getActiveNetworkInterfaces ifaces
      ∧ (updateNetworkState ifaces s).2.lastActiveInterfaces =
          (getActiveNetworkInterfaces ifaces).map (fun i => i.humanReadableName))
  ∧ ((s.selectedIPAddress = HostAddress.null ∨
        s.selectedIPAddress ∈ getAvailableIPv4Addresses ifaces) →
      (updateNetworkState ifaces (updateNetworkState ifaces s).2).1 = false) := by
  refine ⟨?_, ?_, ?_⟩
  · rw [updateNetworkState_fst]
    unfold AddressesDiffer InterfacesDiffer SelectedUnavailable
    simp only [Bool.or_eq_true, addressesChangedB_iff, interfacesChangedB_iff,
      selectedChangedB_iff]
    exact or_assoc
  · intro h
    rw [updateNetworkState_snd_of_true ifaces s h]
    exact ⟨rfl, rfl, rfl⟩
  · intro hsel
    have hselB : selectedChangedB s.selectedIPAddress (getAvailableIPv4Addresses ifaces)
        = false := by
      rcases hsel with hnull | hmem
      · simp [selectedChangedB, hnull, HostAddress.isNull]
      · simp [selectedChangedB, hmem]
    cases h1 : (updateNetworkState ifaces s).1 with
    | false =>
        rw [updateNetworkState_snd_of_false ifaces s h1]
        exact h1
    | true =>
        rw [updateNetworkState_snd_of_true ifaces s h1, updateNetworkState_fst]
        simp only [addressesChangedB_self, interfacesChangedB_self, Bool.false_or]
        exact hselB

/-- Counterexample to claim C10 as stated: with no interfaces, empty
stored snapshots and a selected address 10.0.0.9 that is not
available, `updateNetworkState` returns true, and the immediately
repeated call under the identical (unchanged) environment returns
true again rather than false. -/
theorem updateNetworkState_not_idempotent :
    (updateNetworkState [] cexState).1 = true ∧
      (updateNetworkState [] (updateNetworkState [] cexState).2).1 = true := ⟨rfl, rfl⟩

/-- Witness for the amended claim C10: after an update triggered by a
stale address list (selected address null), the repeated call returns
false. -/
theorem updateNetworkState_spec_witness :
    (updateNetworkState [] (updateNetworkState [] staleState).2).1 = false :=
  (updateNetworkState_spec [] staleState).2.2 (Or.inl rfl)
